import Mathlib

/-!
Shallow embedding of `main.go` of cluster-api-provider-gcp's manager binary.

The program is a straight-line startup sequence: parse flags, create an event
broadcaster with a raised correlator burst size, construct the controller
manager, install a signal-handler context, branch once on the webhook port to
register either the two reconcilers or the two webhook handlers, register the
readiness and liveness checks, and start the manager.  Every fallible external
call (`ctrl.NewManager`, `SetupWithManager`, `SetupWebhookWithManager`,
`AddReadyzCheck`, `AddHealthzCheck`, `mgr.Start`) is modelled by a boolean
oracle (`World`); `os.Exit(1)` is modelled by an early return with exit code 1.
The run result records the startup event trace, the options handed to the
manager constructor, the registered reconcilers and webhooks, and the exit code.
-/

/-- Go `time.Duration`, in nanoseconds (`int64` in Go; all values used here are
nonnegative, so `Nat`). -/
abbrev Duration := Nat

/-- One nanosecond-denominated second, as in Go's `time.Second`. -/
def second : Duration := 1000000000

/-- One nanosecond-denominated minute, as in Go's `time.Minute`. -/
def minute : Duration := 60 * second

/-- Modelled from the spec: `reconciler.DefaultLoopTimeout` lives in package
`sigs.k8s.io/cluster-api-provider-gcp/util/reconciler`, which is not part of
the given source; the spec's configuration table gives the reconcile-timeout
default as 90m. -/
def DefaultLoopTimeout : Duration := 90 * minute

/-- The package-level flag variables of `main.go:64-80`, after `pflag.Parse()`:
one field per flag. -/
structure Flags where
  metricsAddr : String
  enableLeaderElection : Bool
  leaderElectionLeaseDuration : Duration
  leaderElectionRenewDeadline : Duration
  leaderElectionRetryPeriod : Duration
  watchNamespace : String
  leaderElectionNamespace : String
  profilerAddress : String
  watchFilterValue : String
  gcpClusterConcurrency : Int
  gcpMachineConcurrency : Int
  syncPeriod : Duration
  webhookPort : Int
  healthAddr : String
  reconcileTimeout : Duration
deriving Repr, DecidableEq

/-- The default value registered for each flag in `initFlags`
(`main.go:180-279`). -/
def defaultFlags : Flags :=
  { metricsAddr := ":8080"
    enableLeaderElection := false
    leaderElectionLeaseDuration := 15 * second
    leaderElectionRenewDeadline := 10 * second
    leaderElectionRetryPeriod := 2 * second
    watchNamespace := ""
    leaderElectionNamespace := ""
    profilerAddress := ""
    watchFilterValue := ""
    gcpClusterConcurrency := 10
    gcpMachineConcurrency := 10
    syncPeriod := 10 * minute
    webhookPort := 9443
    healthAddr := ":9440"
    reconcileTimeout := DefaultLoopTimeout }

/-- `cgrecord.CorrelatorOptions` as used at `main.go:102-104` (only the burst
size is set). -/
structure CorrelatorOptions where
  burstSize : Int
deriving Repr, DecidableEq

/-- The event broadcaster returned by
`cgrecord.NewBroadcasterWithCorrelatorOptions`; it carries the correlator
options it was constructed with. -/
structure Broadcaster where
  correlator : CorrelatorOptions
deriving Repr, DecidableEq

/-- `cgrecord.NewBroadcasterWithCorrelatorOptions`: a pure constructor at this
level of abstraction. -/
def NewBroadcasterWithCorrelatorOptions (opts : CorrelatorOptions) : Broadcaster :=
  { correlator := opts }

/-- The `ctrl.Options` literal passed to `ctrl.NewManager` at
`main.go:106-120`.  `watchedNamespace` embeds the Go field `Namespace`
(a reserved word in Lean). -/
structure ManagerOptions where
  metricsBindAddress : String
  leaderElection : Bool
  leaderElectionID : String
  leaderElectionNamespace : String
  leaseDuration : Duration
  renewDeadline : Duration
  retryPeriod : Duration
  syncPeriod : Duration
  watchedNamespace : String
  port : Int
  healthProbeBindAddress : String
  eventBroadcaster : Broadcaster
deriving Repr, DecidableEq

/-- The options record built at `main.go:106-120`, field by field from the
parsed flags, the constant leader-election ID, and the broadcaster created just
above it. -/
def mkManagerOptions (f : Flags) (broadcaster : Broadcaster) : ManagerOptions :=
  { metricsBindAddress := f.metricsAddr
    leaderElection := f.enableLeaderElection
    leaderElectionID := "controller-leader-election-capg"
    leaderElectionNamespace := f.leaderElectionNamespace
    leaseDuration := f.leaderElectionLeaseDuration
    renewDeadline := f.leaderElectionRenewDeadline
    retryPeriod := f.leaderElectionRetryPeriod
    syncPeriod := f.syncPeriod
    watchedNamespace := f.watchNamespace
    port := f.webhookPort
    healthProbeBindAddress := f.healthAddr
    eventBroadcaster := broadcaster }

/-- Identifier of the cancellation context returned by
`ctrl.SetupSignalHandler()` at `main.go:130`.  The program creates exactly one
such context, so a single identifier suffices; components that receive a
context are recorded with the identifier they were given. -/
def rootCtx : Nat := 0

/-- One reconciler registration: the struct literal
(`controllers.GCPMachineReconciler` / `controllers.GCPClusterReconciler`)
together with the `controller.Options` and the context passed to its
`SetupWithManager` call (`main.go:133-150`). -/
structure ReconcilerRegistration where
  kind : String
  reconcileTimeout : Duration
  watchFilterValue : String
  maxConcurrentReconciles : Int
  ctx : Nat
deriving Repr, DecidableEq

/-- Outcomes of the fallible external calls made by `main`.  Each field is
`true` when the corresponding call returns a nil error. -/
structure World where
  newManagerOk : Bool
  setupGCPMachineReconcilerOk : Bool
  setupGCPClusterReconcilerOk : Bool
  setupGCPMachineTemplateWebhookOk : Bool
  setupGCPMachineWebhookOk : Bool
  readyzOk : Bool
  healthzOk : Bool
  startOk : Bool
deriving Repr, DecidableEq

/-- The world in which every external call succeeds. -/
def allOkWorld : World :=
  { newManagerOk := true
    setupGCPMachineReconcilerOk := true
    setupGCPClusterReconcilerOk := true
    setupGCPMachineTemplateWebhookOk := true
    setupGCPMachineWebhookOk := true
    readyzOk := true
    healthzOk := true
    startOk := true }

/-- Observable startup events of `main`, in program order. -/
inductive Event where
  | broadcasterCreated (burst : Int)
  | managerConstructed
  | recorderInit
  | signalHandlerSetup
  | reconcilerRegistered (kind : String)
  | webhookRegistered (kind : String)
  | readyzCheckAdded (name : String)
  | healthzCheckAdded (name : String)
  | managerStarted
  | errorLogged (msg : String)
deriving Repr, DecidableEq, BEq

/-- Result of the mode branch at `main.go:132-160`.  `ok := false` embeds the
`os.Exit(1)` taken inside the branch. -/
structure ModeResult where
  events : List Event
  reconcilers : List ReconcilerRegistration
  webhooks : List String
  ok : Bool
deriving Repr, DecidableEq

/-- The mode branch of `main.go:132-160`: when the webhook port is 0 the two
reconcilers are set up (GCPMachine then GCPCluster), each with its own
concurrency flag and the shared reconcile timeout, watch filter and context;
otherwise the two webhooks are set up (GCPMachineTemplate then GCPMachine).
A failing setup logs the error and aborts. -/
def modeSetup (f : Flags) (w : World) : ModeResult :=
  if f.webhookPort = 0 then
    let machineReg : ReconcilerRegistration :=
      { kind := "GCPMachine"
        reconcileTimeout := f.reconcileTimeout
        watchFilterValue := f.watchFilterValue
        maxConcurrentReconciles := f.gcpMachineConcurrency
        ctx := rootCtx }
    if w.setupGCPMachineReconcilerOk = false then
      { events := [.errorLogged "unable to create controller GCPMachine"]
        reconcilers := [], webhooks := [], ok := false }
    else
      let clusterReg : ReconcilerRegistration :=
        { kind := "GCPCluster"
          reconcileTimeout := f.reconcileTimeout
          watchFilterValue := f.watchFilterValue
          maxConcurrentReconciles := f.gcpClusterConcurrency
          ctx := rootCtx }
      if w.setupGCPClusterReconcilerOk = false then
        { events := [.reconcilerRegistered "GCPMachine",
                     .errorLogged "unable to create controller GCPCluster"]
          reconcilers := [machineReg], webhooks := [], ok := false }
      else
        { events := [.reconcilerRegistered "GCPMachine",
                     .reconcilerRegistered "GCPCluster"]
          reconcilers := [machineReg, clusterReg], webhooks := [], ok := true }
  else
    if w.setupGCPMachineTemplateWebhookOk = false then
      { events := [.errorLogged "unable to create webhook GCPMachineTemplate"]
        reconcilers := [], webhooks := [], ok := false }
    else if w.setupGCPMachineWebhookOk = false then
      { events := [.webhookRegistered "GCPMachineTemplate",
                   .errorLogged "unable to create webhook GCPMachine"]
        reconcilers := [], webhooks := ["GCPMachineTemplate"], ok := false }
    else
      { events := [.webhookRegistered "GCPMachineTemplate",
                   .webhookRegistered "GCPMachine"]
        reconcilers := [], webhooks := ["GCPMachineTemplate", "GCPMachine"], ok := true }

/-- Result of the common tail `main.go:162-177`: health-check registration and
`mgr.Start(ctx)`. -/
structure TailResult where
  events : List Event
  exitCode : Nat
  startCtx : Option Nat
deriving Repr, DecidableEq

/-- The common tail of `main` (`main.go:162-177`): register the "ping" readyz
and healthz checks, then run the manager with the signal-handler context;
each failure logs and exits with status 1, and a clean manager run returns,
ending the process with status 0. -/
def healthAndStart (w : World) : TailResult :=
  if w.readyzOk = false then
    { events := [.errorLogged "unable to create ready check"]
      exitCode := 1, startCtx := none }
  else if w.healthzOk = false then
    { events := [.readyzCheckAdded "ping",
                 .errorLogged "unable to create health check"]
      exitCode := 1, startCtx := none }
  else if w.startOk = false then
    { events := [.readyzCheckAdded "ping", .healthzCheckAdded "ping",
                 .errorLogged "problem running manager"]
      exitCode := 1, startCtx := some rootCtx }
  else
    { events := [.readyzCheckAdded "ping", .healthzCheckAdded "ping",
                 .managerStarted]
      exitCode := 0, startCtx := some rootCtx }

/-- Everything observable about one run of `main`. -/
structure RunResult where
  exitCode : Nat
  events : List Event
  managerOptions : Option ManagerOptions
  reconcilers : List ReconcilerRegistration
  webhooks : List String
  startCtx : Option Nat
deriving Repr, DecidableEq

/-- The body of `main` (`main.go:82-178`) for given parsed flags and external
call outcomes.  The broadcaster is created first with burst size 100; manager
construction failure exits with status 1; otherwise the event recorder is
initialized, the signal-handler context is set up, the mode branch runs, the
health checks are registered and the manager is started. -/
def runMain (f : Flags) (w : World) : RunResult :=
  let broadcaster := NewBroadcasterWithCorrelatorOptions { burstSize := 100 }
  let ev0 : List Event := [.broadcasterCreated broadcaster.correlator.burstSize]
  if w.newManagerOk = false then
    { exitCode := 1
      events := ev0 ++ [.errorLogged "unable to start manager"]
      managerOptions := none, reconcilers := [], webhooks := [], startCtx := none }
  else
    let opts := mkManagerOptions f broadcaster
    let ev1 := ev0 ++ [.managerConstructed, .recorderInit, .signalHandlerSetup]
    let m := modeSetup f w
    if m.ok = false then
      { exitCode := 1
        events := ev1 ++ m.events
        managerOptions := some opts
        reconcilers := m.reconcilers, webhooks := m.webhooks, startCtx := none }
    else
      let t := healthAndStart w
      { exitCode := t.exitCode
        events := ev1 ++ m.events ++ t.events
        managerOptions := some opts
        reconcilers := m.reconcilers, webhooks := m.webhooks, startCtx := t.startCtx }

/-- Whether the selected mode branch's setup calls all succeed. -/
def branchOk (f : Flags) (w : World) : Bool :=
  if f.webhookPort = 0 then
    w.setupGCPMachineReconcilerOk && w.setupGCPClusterReconcilerOk
  else
    w.setupGCPMachineTemplateWebhookOk && w.setupGCPMachineWebhookOk

/-- Whether every fallible step of the run succeeds, the manager run included. -/
def startupOk (f : Flags) (w : World) : Bool :=
  w.newManagerOk && branchOk f w && w.readyzOk && w.healthzOk && w.startOk

/-- Modelled from the spec: `healthz.Ping` (the checker registered at
`main.go:162` and `main.go:167`) belongs to controller-runtime, outside the
given source; per the spec the ping liveness and readiness checks always return
success and do not probe leadership.  The checker is therefore a constant
function of the leadership state, returning no error. -/
def pingChecker (_isLeader : Bool) : Option String := none

/-- Flags as parsed when the operator passes `--webhook-port=0`, selecting
reconciler mode; all other flags keep their defaults. -/
def reconcilerModeFlags : Flags :=
  { defaultFlags with webhookPort := 0 }

/-- C1: with webhook port 0 only the two reconcilers (GCPMachine then
GCPCluster) are registered and no webhook handler is installed; with a nonzero
webhook port only the two webhook handlers (GCPMachineTemplate then GCPMachine)
are installed and no reconciler is registered; in every run at least one of the
two registration sets is empty, the branch being decided once on the port. -/
theorem main_mode_mutual_exclusion (f : Flags) (w : World) :
    ((runMain f w).reconcilers = [] ∨ (runMain f w).webhooks = []) ∧
    (f.webhookPort = 0 →
      (runMain f w).webhooks = [] ∧
      (w.newManagerOk = true → w.setupGCPMachineReconcilerOk = true →
        w.setupGCPClusterReconcilerOk = true →
        (runMain f w).reconcilers.map ReconcilerRegistration.kind
          = ["GCPMachine", "GCPCluster"])) ∧
    (f.webhookPort ≠ 0 →
      (runMain f w).reconcilers = [] ∧
      (w.newManagerOk = true → w.setupGCPMachineTemplateWebhookOk = true →
        w.setupGCPMachineWebhookOk = true →
        (runMain f w).webhooks = ["GCPMachineTemplate", "GCPMachine"])) := by
  obtain ⟨mgr, smr, scr, stw, smw, rz, hz, st⟩ := w
  by_cases hp : f.webhookPort = 0 <;>
    cases mgr <;> cases smr <;> cases scr <;> cases stw <;> cases smw <;>
      cases rz <;> cases hz <;> cases st <;>
    simp [runMain, modeSetup, healthAndStart, hp]

/-- C1 witness: in reconciler mode with every call succeeding, no webhook is
installed and exactly the kinds GCPMachine and GCPCluster are registered. -/
theorem main_mode_mutual_exclusion_witness :
    (runMain reconcilerModeFlags allOkWorld).webhooks = [] ∧
    (runMain reconcilerModeFlags allOkWorld).reconcilers.map
      ReconcilerRegistration.kind = ["GCPMachine", "GCPCluster"] := by
  have h := (main_mode_mutual_exclusion reconcilerModeFlags allOkWorld).2.1 rfl
  exact ⟨h.1, h.2 rfl rfl rfl⟩

/-- C2: the exit code is 0 exactly when every fallible step of the run
succeeds, the manager's own run included; any failing step exits nonzero and
the last recorded event is the logged cause, so no event follows the failure. -/
theorem main_exit_discipline (f : Flags) (w : World) :
    ((runMain f w).exitCode = 0 ↔ startupOk f w = true) ∧
    ((runMain f w).exitCode ≠ 0 →
      ∃ msg, (runMain f w).events.getLast? = some (Event.errorLogged msg)) := by
  obtain ⟨mgr, smr, scr, stw, smw, rz, hz, st⟩ := w
  by_cases hp : f.webhookPort = 0 <;>
    cases mgr <;> cases smr <;> cases scr <;> cases stw <;> cases smw <;>
      cases rz <;> cases hz <;> cases st <;>
    simp [runMain, modeSetup, healthAndStart, startupOk, branchOk, hp]

/-- C2 witness: the all-success run exits 0, and the run whose manager
construction fails ends with a logged error as its final event. -/
theorem main_exit_discipline_witness :
    (runMain defaultFlags allOkWorld).exitCode = 0 ∧
    (∃ msg, (runMain defaultFlags { allOkWorld with newManagerOk := false }).events.getLast?
      = some (Event.errorLogged msg)) := by
  constructor
  · exact (main_exit_discipline defaultFlags allOkWorld).1.mpr (by decide)
  · exact (main_exit_discipline defaultFlags
      { allOkWorld with newManagerOk := false }).2 (by decide)

/-- C3 counterexample: in the all-success run with default flags the manager
is constructed strictly before the signal-handler context exists, so the root
cancellation token is not produced before every other component's construction
and the manager cannot receive it at construction time. -/
theorem main_ctx_counterexample :
    ¬ ((runMain defaultFlags allOkWorld).events.indexOf Event.signalHandlerSetup
        ≤ (runMain defaultFlags allOkWorld).events.indexOf Event.managerConstructed) := by
  decide

/-- C3 amended: the root cancellation token is created once, after the event
broadcaster and the manager are constructed but before either mode's handlers
are registered and before the manager starts; every reconciler setup and the
manager's start receive that same token, and no other shutdown source exists. -/
theorem main_ctx_before_handlers (f : Flags) (w : World) :
    (w.newManagerOk = true →
      (runMain f w).events.take 4
        = [Event.broadcasterCreated 100, Event.managerConstructed,
           Event.recorderInit, Event.signalHandlerSetup]) ∧
    (∀ r ∈ (runMain f w).reconcilers, r.ctx = rootCtx) ∧
    (∀ c ∈ (runMain f w).startCtx, c = rootCtx) := by
  obtain ⟨mgr, smr, scr, stw, smw, rz, hz, st⟩ := w
  by_cases hp : f.webhookPort = 0 <;>
    cases mgr <;> cases smr <;> cases scr <;> cases stw <;> cases smw <;>
      cases rz <;> cases hz <;> cases st <;>
    simp [runMain, modeSetup, healthAndStart,
      NewBroadcasterWithCorrelatorOptions, hp]

/-- C3 amended witness: in the all-success default run the first four events
are the broadcaster's creation, the manager's construction, the recorder's
initialization and the signal-handler setup, in that order. -/
theorem main_ctx_before_handlers_witness :
    (runMain defaultFlags allOkWorld).events.take 4
      = [Event.broadcasterCreated 100, Event.managerConstructed,
         Event.recorderInit, Event.signalHandlerSetup] :=
  (main_ctx_before_handlers defaultFlags allOkWorld).1 rfl

/-- C4: whenever the run reaches health-check registration successfully -- in
either mode, under any flags -- both a readiness check and a liveness check
named "ping" are registered, and the ping checker succeeds for every leadership
state. -/
theorem main_ping_checks (f : Flags) (w : World) :
    (w.newManagerOk = true → branchOk f w = true → w.readyzOk = true →
      w.healthzOk = true →
      Event.readyzCheckAdded "ping" ∈ (runMain f w).events ∧
      Event.healthzCheckAdded "ping" ∈ (runMain f w).events) ∧
    (∀ isLeader, pingChecker isLeader = none) := by
  refine ⟨?_, fun _ => rfl⟩
  obtain ⟨mgr, smr, scr, stw, smw, rz, hz, st⟩ := w
  by_cases hp : f.webhookPort = 0 <;>
    cases mgr <;> cases smr <;> cases scr <;> cases stw <;> cases smw <;>
      cases rz <;> cases hz <;> cases st <;>
    simp [runMain, modeSetup, healthAndStart, branchOk, hp]

/-- C4 witness: in the all-success run of each mode both ping checks are
registered. -/
theorem main_ping_checks_witness :
    (Event.readyzCheckAdded "ping" ∈ (runMain defaultFlags allOkWorld).events ∧
      Event.healthzCheckAdded "ping" ∈ (runMain defaultFlags allOkWorld).events) ∧
    (Event.readyzCheckAdded "ping" ∈ (runMain reconcilerModeFlags allOkWorld).events ∧
      Event.healthzCheckAdded "ping" ∈ (runMain reconcilerModeFlags allOkWorld).events) :=
  ⟨(main_ping_checks defaultFlags allOkWorld).1 rfl (by decide) rfl rfl,
    (main_ping_checks reconcilerModeFlags allOkWorld).1 rfl (by decide) rfl rfl⟩

/-- Flags violating the spec's leader-election timing invariant: the renew
deadline (20s) is not smaller than the lease duration (15s). -/
def badDurationFlags : Flags :=
  { defaultFlags with leaderElectionRenewDeadline := 20 * second }

/-- C5 counterexample: a configuration with renewDeadline at least the lease
duration is not rejected at startup -- the run completes with exit status 0 and
the violating values stand unchanged in the options handed to the manager. -/
theorem main_duration_counterexample :
    badDurationFlags.leaderElectionLeaseDuration
        ≤ badDurationFlags.leaderElectionRenewDeadline ∧
    (runMain badDurationFlags allOkWorld).exitCode = 0 ∧
    (runMain badDurationFlags allOkWorld).managerOptions
      = some (mkManagerOptions badDurationFlags
          (NewBroadcasterWithCorrelatorOptions { burstSize := 100 })) := by
  refine ⟨by decide, rfl, rfl⟩

/-- C5 amended: the program itself performs no validation of the
leader-election durations -- the exit code is unchanged under any substitution
of the three duration flags, and the values reaching the manager's options are
exactly the flag values, so any rejection is left to the external manager. -/
theorem main_durations_forwarded_unchecked (f : Flags) (w : World)
    (d1 d2 d3 : Duration) :
    (runMain { f with leaderElectionLeaseDuration := d1,
                      leaderElectionRenewDeadline := d2,
                      leaderElectionRetryPeriod := d3 } w).exitCode
      = (runMain f w).exitCode ∧
    (∀ o ∈ (runMain f w).managerOptions,
      o.leaseDuration = f.leaderElectionLeaseDuration ∧
      o.renewDeadline = f.leaderElectionRenewDeadline ∧
      o.retryPeriod = f.leaderElectionRetryPeriod) := by
  obtain ⟨mgr, smr, scr, stw, smw, rz, hz, st⟩ := w
  by_cases hp : f.webhookPort = 0 <;>
    cases mgr <;> cases smr <;> cases scr <;> cases stw <;> cases smw <;>
      cases rz <;> cases hz <;> cases st <;>
    simp [runMain, modeSetup, healthAndStart, mkManagerOptions, hp]

/-- C5 amended witness: substituting 1s for all three durations in the default
configuration leaves the exit code unchanged, and the lease duration reaching
the manager options of the all-success default run is the flag value. -/
theorem main_durations_forwarded_unchecked_witness :
    (runMain { defaultFlags with leaderElectionLeaseDuration := second,
                                 leaderElectionRenewDeadline := second,
                                 leaderElectionRetryPeriod := second }
        allOkWorld).exitCode
      = (runMain defaultFlags allOkWorld).exitCode ∧
    (mkManagerOptions defaultFlags
        (NewBroadcasterWithCorrelatorOptions { burstSize := 100 })).leaseDuration
      = defaultFlags.leaderElectionLeaseDuration := by
  constructor
  · exact (main_durations_forwarded_unchecked defaultFlags allOkWorld
      second second second).1
  · exact ((main_durations_forwarded_unchecked defaultFlags allOkWorld
      second second second).2 _ rfl).1

/-- Helper: the options handed to the manager constructor are present exactly
when `ctrl.NewManager` succeeds, and are always built by `mkManagerOptions`
from the flags and the burst-100 broadcaster. -/
theorem runMain_managerOptions (f : Flags) (w : World) :
    (runMain f w).managerOptions
      = (if w.newManagerOk = true
          then some (mkManagerOptions f
            (NewBroadcasterWithCorrelatorOptions { burstSize := 100 }))
          else none) := by
  cases hm : w.newManagerOk
  · simp [runMain, hm]
  · by_cases ho : (modeSetup f w).ok = false <;> simp [runMain, hm, ho]

/-- Helper: the reconcilers of a run are those of the mode branch, when the
manager was constructed at all. -/
theorem runMain_reconcilers (f : Flags) (w : World) :
    (runMain f w).reconcilers
      = (if w.newManagerOk = true then (modeSetup f w).reconcilers else []) := by
  cases hm : w.newManagerOk
  · simp [runMain, hm]
  · by_cases ho : (modeSetup f w).ok = false <;> simp [runMain, hm, ho]

/-- Helper: every reconciler registration carries the shared reconcile
timeout, the shared watch-filter value and the root context. -/
theorem modeSetup_reconcilers_fields (f : Flags) (w : World) :
    ∀ r ∈ (modeSetup f w).reconcilers,
      r.reconcileTimeout = f.reconcileTimeout ∧
      r.watchFilterValue = f.watchFilterValue ∧ r.ctx = rootCtx := by
  by_cases hp : f.webhookPort = 0 <;>
    cases h1 : w.setupGCPMachineReconcilerOk <;>
    cases h2 : w.setupGCPClusterReconcilerOk <;>
    cases h3 : w.setupGCPMachineTemplateWebhookOk <;>
    cases h4 : w.setupGCPMachineWebhookOk <;>
    simp [modeSetup, hp, h1, h2, h3, h4]

/-- C6: the leader-elect flag defaults to false and the lease duration, renew
deadline and retry period flags default to 15s, 10s and 2s; all four values
reach the manager's options unchanged, and under the default flags the options
carry leader election disabled. -/
theorem main_leader_election_flags (f : Flags) (w : World) :
    defaultFlags.enableLeaderElection = false ∧
    defaultFlags.leaderElectionLeaseDuration = 15 * second ∧
    defaultFlags.leaderElectionRenewDeadline = 10 * second ∧
    defaultFlags.leaderElectionRetryPeriod = 2 * second ∧
    (∀ o ∈ (runMain f w).managerOptions,
      o.leaderElection = f.enableLeaderElection ∧
      o.leaseDuration = f.leaderElectionLeaseDuration ∧
      o.renewDeadline = f.leaderElectionRenewDeadline ∧
      o.retryPeriod = f.leaderElectionRetryPeriod) ∧
    (∀ o ∈ (runMain defaultFlags w).managerOptions,
      o.leaderElection = false) := by
  refine ⟨rfl, rfl, rfl, rfl, ?_, ?_⟩
  · rw [runMain_managerOptions]
    by_cases hm : w.newManagerOk = true <;> simp [hm, mkManagerOptions]
  · rw [runMain_managerOptions]
    by_cases hm : w.newManagerOk = true <;>
      simp [hm, mkManagerOptions, defaultFlags]

/-- C6 witness: the default flags disable leader election and the options
built from them carry leader election disabled. -/
theorem main_leader_election_flags_witness :
    defaultFlags.enableLeaderElection = false ∧
    ManagerOptions.leaderElection (mkManagerOptions defaultFlags
        (NewBroadcasterWithCorrelatorOptions { burstSize := 100 })) = false := by
  refine ⟨(main_leader_election_flags defaultFlags allOkWorld).1, ?_⟩
  exact (main_leader_election_flags defaultFlags allOkWorld).2.2.2.2.2
    (mkManagerOptions defaultFlags
      (NewBroadcasterWithCorrelatorOptions { burstSize := 100 })) rfl

/-- C7: the reconcile-timeout flag defaults to 90 minutes and its value is the
per-task deadline carried by every reconciler registration of the run. -/
theorem main_reconcile_timeout (f : Flags) (w : World) :
    defaultFlags.reconcileTimeout = 90 * minute ∧
    (∀ r ∈ (runMain f w).reconcilers,
      r.reconcileTimeout = f.reconcileTimeout) := by
  refine ⟨rfl, ?_⟩
  rw [runMain_reconcilers]
  by_cases hm : w.newManagerOk = true
  · simp only [hm, if_pos]
    intro r hr
    exact (modeSetup_reconcilers_fields f w r hr).1
  · simp [hm]

/-- C7 witness: the default reconcile timeout is 90 minutes and the GCPMachine
registration of the all-success reconciler-mode run carries the flag value as
its timeout. -/
theorem main_reconcile_timeout_witness :
    defaultFlags.reconcileTimeout = 90 * minute ∧
    ReconcilerRegistration.reconcileTimeout
        { kind := "GCPMachine"
          reconcileTimeout := reconcilerModeFlags.reconcileTimeout
          watchFilterValue := reconcilerModeFlags.watchFilterValue
          maxConcurrentReconciles := reconcilerModeFlags.gcpMachineConcurrency
          ctx := rootCtx }
      = reconcilerModeFlags.reconcileTimeout := by
  refine ⟨(main_reconcile_timeout defaultFlags allOkWorld).1, ?_⟩
  exact (main_reconcile_timeout reconcilerModeFlags allOkWorld).2 _ (by decide)

/-- C8: in a successful reconciler-mode run the registrations are exactly
GCPMachine with the gcpmachine-concurrency flag and GCPCluster with the
gcpcluster-concurrency flag (each defaulting to 10), both sharing the same
reconcile timeout and the same watch-filter value. -/
theorem main_per_kind_concurrency (f : Flags) (w : World)
    (hp : f.webhookPort = 0) (hm : w.newManagerOk = true)
    (h1 : w.setupGCPMachineReconcilerOk = true)
    (h2 : w.setupGCPClusterReconcilerOk = true) :
    defaultFlags.gcpMachineConcurrency = 10 ∧
    defaultFlags.gcpClusterConcurrency = 10 ∧
    (runMain f w).reconcilers
      = [{ kind := "GCPMachine"
           reconcileTimeout := f.reconcileTimeout
           watchFilterValue := f.watchFilterValue
           maxConcurrentReconciles := f.gcpMachineConcurrency
           ctx := rootCtx },
         { kind := "GCPCluster"
           reconcileTimeout := f.reconcileTimeout
           watchFilterValue := f.watchFilterValue
           maxConcurrentReconciles := f.gcpClusterConcurrency
           ctx := rootCtx }] := by
  refine ⟨rfl, rfl, ?_⟩
  rw [runMain_reconcilers]
  simp [modeSetup, hp, hm, h1, h2]

/-- C8 witness: the all-success reconciler-mode run with default flag values
registers the two kinds with concurrency 10 each, identical timeouts and
identical watch filters. -/
theorem main_per_kind_concurrency_witness :
    (runMain reconcilerModeFlags allOkWorld).reconcilers
      = [{ kind := "GCPMachine"
           reconcileTimeout := reconcilerModeFlags.reconcileTimeout
           watchFilterValue := reconcilerModeFlags.watchFilterValue
           maxConcurrentReconciles := reconcilerModeFlags.gcpMachineConcurrency
           ctx := rootCtx },
         { kind := "GCPCluster"
           reconcileTimeout := reconcilerModeFlags.reconcileTimeout
           watchFilterValue := reconcilerModeFlags.watchFilterValue
           maxConcurrentReconciles := reconcilerModeFlags.gcpClusterConcurrency
           ctx := rootCtx }] :=
  (main_per_kind_concurrency reconcilerModeFlags allOkWorld rfl rfl rfl rfl).2.2

/-- C9: in every run, whatever the flags and whatever any call's outcome, the
first startup event is the creation of the event broadcaster with correlator
burst size 100, and the broadcaster inside the options handed to the manager
constructor is exactly that burst-100 broadcaster. -/
theorem main_broadcaster_burst (f : Flags) (w : World) :
    (runMain f w).events.head? = some (Event.broadcasterCreated 100) ∧
    (∀ o ∈ (runMain f w).managerOptions,
      o.eventBroadcaster
          = NewBroadcasterWithCorrelatorOptions { burstSize := 100 } ∧
      o.eventBroadcaster.correlator.burstSize = 100) := by
  constructor
  · cases hm : w.newManagerOk
    · simp [runMain, NewBroadcasterWithCorrelatorOptions, hm]
    · by_cases ho : (modeSetup f w).ok = false <;>
        simp [runMain, NewBroadcasterWithCorrelatorOptions, hm, ho]
  · rw [runMain_managerOptions]
    by_cases hm : w.newManagerOk = true <;>
      simp [hm, mkManagerOptions, NewBroadcasterWithCorrelatorOptions]

/-- C9 witness: in the all-success default run the first event is the burst-100
broadcaster creation and the options' broadcaster is that broadcaster. -/
theorem main_broadcaster_burst_witness :
    (runMain defaultFlags allOkWorld).events.head?
      = some (Event.broadcasterCreated 100) ∧
    ManagerOptions.eventBroadcaster (mkManagerOptions defaultFlags
        (NewBroadcasterWithCorrelatorOptions { burstSize := 100 }))
      = NewBroadcasterWithCorrelatorOptions { burstSize := 100 } := by
  refine ⟨(main_broadcaster_burst defaultFlags allOkWorld).1, ?_⟩
  exact ((main_broadcaster_burst defaultFlags allOkWorld).2
    (mkManagerOptions defaultFlags
      (NewBroadcasterWithCorrelatorOptions { burstSize := 100 })) rfl).1

/-- C10: the leader-election lease identifier in the options built for the
manager is the fixed string "controller-leader-election-capg" for every flag
assignment, so no flag can change it; the options of any run whose manager was
constructed carry exactly that identifier. -/
theorem main_leader_election_id_fixed (f : Flags) (w : World) :
    (mkManagerOptions f
        (NewBroadcasterWithCorrelatorOptions { burstSize := 100 })).leaderElectionID
      = "controller-leader-election-capg" ∧
    (runMain f w).managerOptions.map ManagerOptions.leaderElectionID
      = (if w.newManagerOk = true
          then some "controller-leader-election-capg" else none) := by
  refine ⟨rfl, ?_⟩
  rw [runMain_managerOptions]
  by_cases hm : w.newManagerOk = true <;> simp [hm, mkManagerOptions]
